import Mathlib

/-!
Shallow embedding of the torus-cli core covered by the specification:
the apitypes error model (`FormatError`, `IsNotFoundError`, `Error()`
rendering), registry clients (`CredentialTreeClient`, `MachinesClient`),
the CLI `wrap` helper, login credential types, profile editing, project
creation, and the daemon shutdown paths.  Definitions are translated
from the Go/JavaScript sources; theorems settle the frozen claims.
-/

namespace Torus

/-! ## Go string helpers

`strings.Contains`, `strings.Split` (single-character separator),
`strings.Join`, and `strings.Title` modelled over `List Char`.
-/

/-- Whether `sub` is a prefix of `s` (byte/char-wise, as in Go). -/
def hasPrefixL : List Char → List Char → Bool
  | _, [] => true
  | [], _ :: _ => false
  | a :: s, b :: t => a == b && hasPrefixL s t

/-- `strings.Contains s sub`: `sub` occurs contiguously inside `s`. -/
def containsL : List Char → List Char → Bool
  | [], sub => hasPrefixL [] sub
  | c :: rest, sub => hasPrefixL (c :: rest) sub || containsL rest sub

/-- `strings.Contains` on `String`. -/
def goContains (s sub : String) : Bool :=
  containsL s.toList sub.toList

/-- `strings.Split s sep` for a single-character separator `sep`.
Go returns `[""]` on the empty string and keeps empty fields. -/
def splitOnChar (sep : Char) : List Char → List (List Char)
  | [] => [[]]
  | c :: rest =>
    let r := splitOnChar sep rest
    if c == sep then [] :: r
    else
      match r with
      | [] => [[c]]
      | w :: ws => (c :: w) :: ws

/-- `strings.Join words sep`: intercalate `sep` between the words. -/
def joinWith (sep : List Char) : List (List Char) → List Char
  | [] => []
  | [w] => w
  | w :: ws => w ++ sep ++ joinWith sep ws

/-- Replace every occurrence of character `a` by `b`. -/
def replaceChar (a b : Char) (s : List Char) : List Char :=
  s.map fun c => if c == a then b else c

/-- Go `unicode`/`strings.isSeparator`, ASCII fragment: ASCII
alphanumerics and underscore are not separators, every other ASCII
character is.  (The registry error types are ASCII identifiers.) -/
def goIsSeparator (c : Char) : Bool :=
  if c.toNat ≤ 0x7F then
    !(( '0' ≤ c && c ≤ '9') || ( 'a' ≤ c && c ≤ 'z') ||
      ( 'A' ≤ c && c ≤ 'Z') || c == '_')
  else
    false

/-- Helper for `goTitle`: carries the previous character, as in the
`strings.Title` implementation (`prev` starts as a space). -/
def goTitleAux : Char → List Char → List Char
  | _, [] => []
  | prev, c :: rest =>
    (if goIsSeparator prev then c.toUpper else c) :: goTitleAux c rest

/-- `strings.Title`: upper-case each character that follows a separator
(ASCII title case = upper case). -/
def goTitle (s : List Char) : List Char :=
  goTitleAux ' ' s

theorem splitOnChar_ne_nil (sep : Char) (s : List Char) :
    splitOnChar sep s ≠ [] := by
  cases s with
  | nil => simp [splitOnChar]
  | cons c rest =>
    simp only [splitOnChar]
    by_cases h : (c == sep) = true
    · simp [h]
    · simp only [h, Bool.false_eq_true, if_false]
      cases splitOnChar sep rest <;> simp

/-- Splitting on a character and re-joining with another character is
character-wise replacement. -/
theorem joinWith_splitOnChar (a b : Char) (s : List Char) :
    joinWith [b] (splitOnChar a s) = replaceChar a b s := by
  induction s with
  | nil => rfl
  | cons c rest ih =>
    simp only [splitOnChar, replaceChar, List.map_cons]
    by_cases h : (c == a) = true
    · have hc : c = a := by exact beq_iff_eq.mp h
      simp only [h, if_true, hc, beq_self_eq_true]
      cases hr : splitOnChar a rest with
      | nil => exact absurd hr (splitOnChar_ne_nil a rest)
      | cons w ws =>
        have : joinWith [b] ([] :: w :: ws) = b :: joinWith [b] (w :: ws) := by
          simp [joinWith]
        rw [this, ← hr, ih]
        rfl
    · simp only [h, Bool.false_eq_true, if_false]
      cases hr : splitOnChar a rest with
      | nil => exact absurd hr (splitOnChar_ne_nil a rest)
      | cons w ws =>
        have hjoin : joinWith [b] ((c :: w) :: ws) = c :: joinWith [b] (w :: ws) := by
          cases ws <;> simp [joinWith]
        rw [hjoin, ← hr, ih]
        simp [replaceChar, h]

/-! ## apitypes: registry/daemon error model

From the `apitypes` fragment of the corpus: the `Error` struct with
`StatusCode`, a `type` from the error body, and the `error` message
list; `Error()` rendering; `FormatError`; `NewUnverifiedError`;
`IsNotFoundError`.
-/

/-- The possible registry/daemon error type strings. -/
def BadRequestError : String := "bad_request"

/-- `unauthorized` error type constant. -/
def UnauthorizedError : String := "unauthorized"

/-- `not_found` error type constant. -/
def NotFoundError : String := "not_found"

/-- `internal_server` error type constant. -/
def InternalServerError : String := "internal_server"

/-- `not_implemented` error type constant. -/
def NotImplementedError : String := "not_implemented"

/-- `apitypes.Error`: a standard formatted API error from the daemon
or registry, decoded from the body `{type: string, error: [string]}`
plus the untagged `StatusCode` field. -/
structure ApiError where
  statusCode : Int
  type : String
  err : List String
deriving DecidableEq, Repr

/-- A Go `error` value as the core observes it: either a formatted
API error (`*apitypes.Error`) or some other error, identified by its
message. -/
inductive GoError where
  | api : ApiError → GoError
  | other : String → GoError
deriving DecidableEq, Repr

/-- `(e *Error) Error()`: split the type on underscores, re-join with
spaces, title-case, then append `": "` and the messages joined by
single spaces. -/
def ApiError.render (e : ApiError) : String :=
  String.mk (goTitle (joinWith [' '] (splitOnChar '_' e.type.toList))) ++
    ": " ++ String.mk (joinWith [' '] (e.err.map String.toList))

/-- `err.Error()` for either kind of Go error. -/
def GoError.message : GoError → String
  | GoError.api a => a.render
  | GoError.other s => s

/-- `NewUnverifiedError`: the distinguished unverified-account error. -/
def NewUnverifiedError : ApiError :=
  { statusCode := 401
    type := UnauthorizedError
    err := ["Your account has not yet been verified.\n\n" ++
      "Please check your email for your verification code and follow the enclosed instructions.\n" ++
      "Once you have verified your account you may retry this operation."] }

/-- `FormatError`: updates an error to contain more context.  `nil`
stays `nil`; an unauthorized API error whose messages mention the
unverified identity state becomes the unverified-account error; any
other unauthorized API error becomes the generic unauthorized error;
everything else is returned unchanged. -/
def FormatError : Option GoError → Option GoError
  | none => none
  | some e =>
    match e with
    | GoError.api a =>
      if a.type == UnauthorizedError then
        if a.err.any fun m => goContains m "wrong identity state: unverified" then
          some (GoError.api NewUnverifiedError)
        else
          some (GoError.api
            { statusCode := 401
              type := UnauthorizedError
              err := ["You are unauthorized to perform this action."] })
      else some e
    | GoError.other _ => some e

/-- `IsNotFoundError`: whether an error is a 404 result from the api. -/
def IsNotFoundError : Option GoError → Bool
  | none => false
  | some (GoError.api a) => a.type == NotFoundError
  | some (GoError.other _) => false

/-! ## JSON decoding of error bodies (for C7)

A small JSON value model and the decoding of the
`{type: string, error: [string]}` body shape into `ApiError`,
following the struct's `json` tags (absent keys leave Go zero
values; the untagged `StatusCode` field decodes from the key
`"StatusCode"`).  The model covers documents whose keys match the
field tags exactly, which is the shape the claim describes.
-/

/-- JSON values. -/
inductive Json where
  | null : Json
  | bool : Bool → Json
  | num : Int → Json
  | str : String → Json
  | arr : List Json → Json
  | obj : List (String × Json) → Json

/-- First value bound to key `k` in a JSON object's field list. -/
def lookupField (k : String) : List (String × Json) → Option Json
  | [] => none
  | (k2, v) :: rest => if k2 == k then some v else lookupField k rest

/-- Decode a JSON array of strings element-wise. -/
def decodeStrings : List Json → Option (List String)
  | [] => some []
  | Json.str s :: rest => (decodeStrings rest).map fun l => s :: l
  | _ :: _ => none

/-- Decode the `type` field: absent means the zero value `""`. -/
def decodeTypeField : Option Json → Option String
  | none => some ""
  | some (Json.str s) => some s
  | some _ => none

/-- Decode the `error` field: absent means the zero value `[]`. -/
def decodeErrField : Option Json → Option (List String)
  | none => some []
  | some (Json.arr xs) => decodeStrings xs
  | some _ => none

/-- Decode the untagged `StatusCode` field: absent means `0`. -/
def decodeStatusField : Option Json → Option Int
  | none => some 0
  | some (Json.num n) => some n
  | some _ => none

/-- Decode a JSON document into `apitypes.Error` per the struct tags. -/
def decodeApiError : Json → Option ApiError
  | Json.obj fields =>
    match decodeTypeField (lookupField "type" fields) with
    | none => none
    | some t =>
      match decodeErrField (lookupField "error" fields) with
      | none => none
      | some msgs =>
        match decodeStatusField (lookupField "StatusCode" fields) with
        | none => none
        | some sc => some { statusCode := sc, type := t, err := msgs }
  | _ => none

/-- The claim's description of the rendering: the type string with
each underscore replaced by a space and title-cased, then `": "`, then
the message strings joined by single spaces. -/
def ApiError.renderSpec (e : ApiError) : String :=
  String.mk (goTitle (replaceChar '_' ' ' e.type.toList)) ++
    ": " ++ String.mk (joinWith [' '] (e.err.map String.toList))

/-- C1: `FormatError` maps an unauthorized API error whose messages
contain "wrong identity state: unverified" to the distinguished
unverified-account error, any other unauthorized API error to the
generic unauthorized error, leaves every error that is not an
unauthorized API error unchanged, maps `nil` to `nil`, and
`IsNotFoundError` holds exactly for API errors of type `not_found`. -/
theorem c1_format_error_classification :
    FormatError none = none ∧
    (∀ a : ApiError, a.type = UnauthorizedError →
      ((a.err.any fun m => goContains m "wrong identity state: unverified") = true →
        FormatError (some (GoError.api a)) = some (GoError.api NewUnverifiedError)) ∧
      ((a.err.any fun m => goContains m "wrong identity state: unverified") = false →
        FormatError (some (GoError.api a)) =
          some (GoError.api
            { statusCode := 401
              type := UnauthorizedError
              err := ["You are unauthorized to perform this action."] }))) ∧
    (∀ a : ApiError, a.type ≠ UnauthorizedError →
      FormatError (some (GoError.api a)) = some (GoError.api a)) ∧
    (∀ s : String, FormatError (some (GoError.other s)) = some (GoError.other s)) ∧
    (∀ e : Option GoError, IsNotFoundError e = true ↔
      ∃ a : ApiError, e = some (GoError.api a) ∧ a.type = NotFoundError) := by
  refine ⟨rfl, ?_, ?_, ?_, ?_⟩
  · intro a ha
    constructor
    · intro hany
      simp [FormatError, ha, hany]
    · intro hany
      simp [FormatError, ha, hany]
  · intro a ha
    simp [FormatError, ha]
  · intro s
    rfl
  · intro e
    match e with
    | none => simp [IsNotFoundError]
    | some (GoError.api a) =>
      simp only [IsNotFoundError, beq_iff_eq, Option.some.injEq]
      constructor
      · intro h
        exact ⟨a, rfl, h⟩
      · rintro ⟨a2, ha2, h2⟩
        cases ha2
        exact h2
    | some (GoError.other s) =>
      simp [IsNotFoundError]

/-- Witness for C1: concrete unverified, generic-unauthorized,
unchanged, and not-found instances. -/
theorem c1_format_error_classification_witness :
    FormatError (some (GoError.api
        { statusCode := 403, type := "unauthorized"
          err := ["signup: wrong identity state: unverified"] })) =
      some (GoError.api NewUnverifiedError) ∧
    FormatError (some (GoError.api
        { statusCode := 401, type := "unauthorized", err := ["nope"] })) =
      some (GoError.api
        { statusCode := 401, type := "unauthorized"
          err := ["You are unauthorized to perform this action."] }) ∧
    FormatError (some (GoError.api
        { statusCode := 404, type := "not_found", err := ["missing"] })) =
      some (GoError.api
        { statusCode := 404, type := "not_found", err := ["missing"] }) ∧
    IsNotFoundError (some (GoError.api
        { statusCode := 404, type := "not_found", err := ["missing"] })) = true := by
  refine ⟨?_, ?_, ?_, ?_⟩
  · exact (c1_format_error_classification.2.1 _ rfl).1 (by decide)
  · exact (c1_format_error_classification.2.1 _ rfl).2 (by decide)
  · exact c1_format_error_classification.2.2.1 _ (by decide)
  · exact (c1_format_error_classification.2.2.2.2 _).mpr ⟨_, rfl, rfl⟩

/-- C7: the registry error representation decodes the body shape
`{type: string, error: [string]}` (absent `StatusCode` decoding to the
zero value 0), and `Error()` renders it as the type string with each
underscore replaced by a space and title-cased, followed by `": "` and
the message strings joined by single spaces. -/
theorem c7_error_body_and_rendering :
    (∀ (t : String) (msgs : List String),
      decodeApiError
          (Json.obj [("type", Json.str t), ("error", Json.arr (msgs.map Json.str))]) =
        some { statusCode := 0, type := t, err := msgs }) ∧
    (∀ e : ApiError, e.render = e.renderSpec) := by
  constructor
  · intro t msgs
    have hdec : decodeStrings (msgs.map Json.str) = some msgs := by
      induction msgs with
      | nil => rfl
      | cons m rest ih => simp [decodeStrings, ih]
    simp [decodeApiError, lookupField, decodeTypeField, decodeErrField,
      decodeStatusField, hdec]
  · intro e
    simp [ApiError.render, ApiError.renderSpec, joinWith_splitOnChar]

/-! ## Registry clients

Models of `CredentialTreeClient` (src/cmd/services.go, registry
fragment) and `MachinesClient` (src/daemon/registry/machines.go).
Each call follows the `NewRequest`-then-`Do` pattern; the model
returns the list of requests actually executed through `client.Do`
together with the call's result.  `NewRequest` and `Do` outcomes are
supplied as oracles since the HTTP transport is outside the core.
Domain payload types (`envelope`, `identity.ID`, `pathexp.PathExp`)
are opaque to these clients; only `String()` forms are observed.
-/

/-- `identity.ID`, opaque except for its `String()` form. -/
structure ID where
  idStr : String
deriving DecidableEq, Repr

/-- `pathexp.PathExp`, opaque except for its `String()` form. -/
structure PathExp where
  str : String
deriving DecidableEq, Repr

/-- `envelope.Unsigned`, opaque payload. -/
structure EnvelopeUnsigned where
  tag : Nat
deriving DecidableEq, Repr

/-- `envelope.Signed`, opaque payload. -/
structure EnvelopeSigned where
  tag : Nat
deriving DecidableEq, Repr

/-- `registry.ClaimedKeyPair`, opaque payload. -/
structure ClaimedKeyPair where
  tag : Nat
deriving DecidableEq, Repr

/-- `registry.CredentialTree`: a keyring, its members, and the
associated credentials. -/
structure CredentialTree where
  keyring : EnvelopeSigned
  members : List EnvelopeSigned
  credentials : List EnvelopeSigned
deriving DecidableEq, Repr

/-- An HTTP request handed to `client.Do`, with body type `β`. -/
structure Req (β : Type) where
  method : String
  path : String
  query : List (String × String)
  body : Option β
deriving DecidableEq, Repr

/-- The `NewRequest`-then-`Do` pattern shared by the registry client
methods: if `NewRequest` fails the error is returned with no request
executed; otherwise exactly one `Do` runs and its outcome is returned
as-is. -/
def oneCall {β ρ : Type} (req : Req β) (newReqResult : Except GoError Unit)
    (doResult : Except GoError ρ) : List (Req β) × Except GoError ρ :=
  match newReqResult with
  | Except.error e => ([], Except.error e)
  | Except.ok _ =>
    match doResult with
    | Except.error e => ([req], Except.error e)
    | Except.ok r => ([req], Except.ok r)

/-- Whether a query carries a parameter with key `k`. -/
def containsKey (q : List (String × String)) (k : String) : Bool :=
  q.any fun p => p.1 == k

namespace CredentialTreeClient

/-- `CredentialTreeClient.Post`: POST the tree to `/credentialtree`. -/
def Post (t : CredentialTree) (newReqResult : Except GoError Unit)
    (doResult : Except GoError CredentialTree) :
    List (Req CredentialTree) × Except GoError CredentialTree :=
  oneCall { method := "POST", path := "/credentialtree", query := [], body := some t }
    newReqResult doResult

/-- The query built by `CredentialTreeClient.List` via `query.Set`:
one parameter for each non-empty / non-nil argument. -/
def listQuery (name path : String) (pe : Option PathExp) (oid : Option ID) :
    List (String × String) :=
  (if path != "" then [("path", path)] else []) ++
    (match pe with
     | some p => [("pathexp", p.str)]
     | none => []) ++
    (if name != "" then [("name", name)] else []) ++
    (match oid with
     | some o => [("owner_id", o.idStr)]
     | none => [])

/-- `CredentialTreeClient.List` (named `ListTrees` here): rejects
`path` together with `pathExp` before building any request, otherwise
GETs `/credentialtree` with the assembled query. -/
def ListTrees (name path : String) (pe : Option PathExp) (oid : Option ID)
    (newReqResult : Except GoError Unit)
    (doResult : Except GoError (List CredentialTree)) :
    List (Req Unit) × Except GoError (List CredentialTree) :=
  if path != "" && pe.isSome then
    ([], Except.error (GoError.other "cannot provide path and pathexp at the same time"))
  else
    oneCall
      { method := "GET", path := "/credentialtree"
        query := listQuery name path pe oid, body := none }
      newReqResult doResult

end CredentialTreeClient

/-- `registry.MachineTokenCreationSegment`: a token envelope plus its
claimed keypairs. -/
structure MachineTokenCreationSegment where
  token : EnvelopeUnsigned
  keypairs : List ClaimedKeyPair
deriving DecidableEq, Repr

/-- `registry.MachineCreationSegment`: the body POSTed to `/machines`. -/
structure MachineCreationSegment where
  machine : EnvelopeUnsigned
  memberships : List EnvelopeUnsigned
  tokens : List MachineTokenCreationSegment
deriving DecidableEq, Repr

/-- `apitypes.MachineSegment` response, opaque. -/
structure MachineSegment where
  tag : Nat
deriving DecidableEq, Repr

namespace MachinesClient

/-- `MachinesClient.Create`: builds a `MachineCreationSegment` from
the machine, its memberships, and a single-token list, and POSTs it
to `/machines` in one request. -/
def Create (machine : EnvelopeUnsigned) (memberships : List EnvelopeUnsigned)
    (token : MachineTokenCreationSegment)
    (newReqResult : Except GoError Unit) (doResult : Except GoError MachineSegment) :
    List (Req MachineCreationSegment) × Except GoError MachineSegment :=
  oneCall
    { method := "POST", path := "/machines", query := []
      body := some { machine := machine, memberships := memberships, tokens := [token] } }
    newReqResult doResult

/-- `MachinesClient.Get`: GET a single machine by ID. -/
def Get (machineID : ID) (newReqResult : Except GoError Unit)
    (doResult : Except GoError MachineSegment) :
    List (Req Unit) × Except GoError MachineSegment :=
  oneCall
    { method := "GET", path := "/machines/" ++ machineID.idStr
      query := [], body := none }
    newReqResult doResult

end MachinesClient

/-! ## Project creation and credential `set` (for C3) -/

/-- `api.ProjectResult`, opaque. -/
structure ProjectResult where
  tag : Nat
deriving DecidableEq, Repr

/-- A `client.Projects.Create` registry call as issued by
`createProjectByName`. -/
structure ProjCreateReq where
  orgID : Option ID
  name : String
deriving DecidableEq, Repr

/-- `createProjectByName` (src/unnamed/part_000): mirrors the source
statement order — `client.Projects.Create` is invoked first, and the
`orgID == nil` check runs only after that call, discarding the call's
result in favour of "Org not found".  The first component is the list
of project-create registry calls issued. -/
def createProjectByName (orgID : Option ID) (name : String)
    (createResult : Except GoError ProjectResult) :
    List ProjCreateReq × Except GoError ProjectResult :=
  let issued : List ProjCreateReq := [{ orgID := orgID, name := name }]
  if orgID.isNone then
    (issued, Except.error (GoError.other "Org not found"))
  else
    match createResult with
    | Except.error e =>
      if goContains e.message "resource exists" then
        (issued, Except.error (GoError.other "Project already exists"))
      else
        (issued, Except.error (GoError.other "Could not create project."))
    | Except.ok p => (issued, Except.ok p)

/-- `set.execute` (src/cli/lib/credentials/set.js): rejects fewer than
two parameters before `credentials.create` runs.  The Bool records
whether `credentials.create` was invoked. -/
def setExecute (params : List String) (createResult : Except GoError Unit) :
    Bool × Except GoError Unit :=
  if params.length < 2 then
    (false, Except.error (GoError.other "You must provide two parameters"))
  else
    (true, createResult)

/-- C2: `CredentialTreeClient.List` with both a non-empty path and a
non-nil pathExp errors without executing any request; the query it
builds carries a `path`, `pathexp`, `name`, or `owner_id` parameter
exactly for the arguments that are non-empty or non-nil, and when at
most one of path/pathExp is given the single executed request carries
exactly that query. -/
theorem c2_list_path_pathexp_exclusive :
    (∀ (name path : String) (pe : Option PathExp) (oid : Option ID)
        (nr : Except GoError Unit) (dr : Except GoError (List CredentialTree)),
      path ≠ "" → pe ≠ none →
      CredentialTreeClient.ListTrees name path pe oid nr dr =
        ([], Except.error (GoError.other "cannot provide path and pathexp at the same time"))) ∧
    (∀ (name path : String) (pe : Option PathExp) (oid : Option ID),
      (containsKey (CredentialTreeClient.listQuery name path pe oid) "path" = true ↔
        path ≠ "") ∧
      (containsKey (CredentialTreeClient.listQuery name path pe oid) "pathexp" = true ↔
        pe ≠ none) ∧
      (containsKey (CredentialTreeClient.listQuery name path pe oid) "name" = true ↔
        name ≠ "") ∧
      (containsKey (CredentialTreeClient.listQuery name path pe oid) "owner_id" = true ↔
        oid ≠ none)) ∧
    (∀ (name path : String) (pe : Option PathExp) (oid : Option ID)
        (dr : Except GoError (List CredentialTree)),
      ¬(path ≠ "" ∧ pe ≠ none) →
      (CredentialTreeClient.ListTrees name path pe oid (Except.ok ()) dr).1 =
        [{ method := "GET", path := "/credentialtree"
           query := CredentialTreeClient.listQuery name path pe oid, body := none }]) := by
  refine ⟨?_, ?_, ?_⟩
  · intro name path pe oid nr dr hp hpe
    cases pe with
    | none => exact absurd rfl hpe
    | some p => simp [CredentialTreeClient.ListTrees, hp]
  · intro name path pe oid
    by_cases hp : path = "" <;> by_cases hn : name = "" <;>
      cases pe <;> cases oid <;>
        simp [CredentialTreeClient.listQuery, containsKey, hp, hn]
  · intro name path pe oid dr h
    by_cases hp : path = ""
    · cases pe <;> cases dr <;> simp [CredentialTreeClient.ListTrees, hp, oneCall]
    · cases pe with
      | none => cases dr <;> simp [CredentialTreeClient.ListTrees, hp, oneCall]
      | some p => exact absurd ⟨hp, by simp⟩ h

/-- Witness for C2: both filters given errors with no request; a
path-only call executes one GET whose query has exactly the path
parameter. -/
theorem c2_list_path_pathexp_exclusive_witness :
    CredentialTreeClient.ListTrees "" "/o/p/e/s/u/1" (some { str := "/o/p/*/*/*/*" })
        none (Except.ok ()) (Except.ok []) =
      ([], Except.error (GoError.other "cannot provide path and pathexp at the same time")) ∧
    (CredentialTreeClient.ListTrees "" "/o/p/e/s/u/1" none none
        (Except.ok ()) (Except.ok [])).1 =
      [{ method := "GET", path := "/credentialtree"
         query := CredentialTreeClient.listQuery "" "/o/p/e/s/u/1" none none
         body := none }] := by
  constructor
  · exact c2_list_path_pathexp_exclusive.1 "" "/o/p/e/s/u/1"
      (some { str := "/o/p/*/*/*/*" }) none (Except.ok ()) (Except.ok [])
      (by decide) (by simp)
  · exact c2_list_path_pathexp_exclusive.2.2 "" "/o/p/e/s/u/1" none none
      (Except.ok []) (by simp)

/-- C3 (code-bug evidence): `set.execute` and
`CredentialTreeClient.List` validate before any registry call, but
`createProjectByName` with a nil org issues the project-create
registry call and only then returns the "Org not found" validation
error. -/
theorem c3_validation_before_roundtrip :
    (setExecute ["KEY"] (Except.ok ())).1 = false ∧
    (setExecute ["KEY"] (Except.ok ())).2 =
      Except.error (GoError.other "You must provide two parameters") ∧
    (CredentialTreeClient.ListTrees "" "/o/p/e/s/u/1" (some { str := "/o/p/*/*/*/*" })
        none (Except.ok ()) (Except.ok [])).1 = [] ∧
    (createProjectByName none "api" (Except.ok { tag := 0 })).2 =
      Except.error (GoError.other "Org not found") ∧
    (createProjectByName none "api" (Except.ok { tag := 0 })).1 =
      [{ orgID := none, name := "api" }] := by
  exact ⟨rfl, rfl, rfl, rfl, rfl⟩

/-- C4: `MachinesClient.Create` executes at most one request, and any
executed request POSTs to `/machines` a `MachineCreationSegment`
holding exactly the given machine, the given memberships in order, and
a one-element `Tokens` list containing the given token segment. -/
theorem c4_machine_create_single_request_body :
    ∀ (machine : EnvelopeUnsigned) (memberships : List EnvelopeUnsigned)
      (token : MachineTokenCreationSegment)
      (nr : Except GoError Unit) (dr : Except GoError MachineSegment),
      ((MachinesClient.Create machine memberships token nr dr).1.all fun r =>
          r == { method := "POST", path := "/machines", query := []
                 body := some { machine := machine, memberships := memberships
                                tokens := [token] } }) = true ∧
      (MachinesClient.Create machine memberships token nr dr).1.length ≤ 1 ∧
      (MachinesClient.Create machine memberships token (Except.ok ()) dr).1 =
        [{ method := "POST", path := "/machines", query := []
           body := some { machine := machine, memberships := memberships
                          tokens := [token] } }] := by
  intro machine memberships token nr dr
  refine ⟨?_, ?_, ?_⟩ <;>
    cases nr <;> cases dr <;> simp [MachinesClient.Create, oneCall]

/-- C5: none of the four registry calls retries — each executes at
most one request, and a failed `Do` surfaces its error immediately as
the call's result. -/
theorem c5_no_retry :
    (∀ (t : CredentialTree) (nr : Except GoError Unit)
        (dr : Except GoError CredentialTree),
      (CredentialTreeClient.Post t nr dr).1.length ≤ 1) ∧
    (∀ (t : CredentialTree) (e : GoError),
      CredentialTreeClient.Post t (Except.ok ()) (Except.error e) =
        ([{ method := "POST", path := "/credentialtree", query := [], body := some t }],
          Except.error e)) ∧
    (∀ (name path : String) (pe : Option PathExp) (oid : Option ID)
        (nr : Except GoError Unit) (dr : Except GoError (List CredentialTree)),
      (CredentialTreeClient.ListTrees name path pe oid nr dr).1.length ≤ 1) ∧
    (∀ (name path : String) (pe : Option PathExp) (oid : Option ID) (e : GoError),
      ¬(path ≠ "" ∧ pe ≠ none) →
      (CredentialTreeClient.ListTrees name path pe oid (Except.ok ())
          (Except.error e)).2 = Except.error e ∧
      (CredentialTreeClient.ListTrees name path pe oid (Except.ok ())
          (Except.error e)).1.length = 1) ∧
    (∀ (machine : EnvelopeUnsigned) (memberships : List EnvelopeUnsigned)
        (token : MachineTokenCreationSegment) (nr : Except GoError Unit)
        (dr : Except GoError MachineSegment),
      (MachinesClient.Create machine memberships token nr dr).1.length ≤ 1) ∧
    (∀ (machine : EnvelopeUnsigned) (memberships : List EnvelopeUnsigned)
        (token : MachineTokenCreationSegment) (e : GoError),
      (MachinesClient.Create machine memberships token (Except.ok ())
          (Except.error e)).2 = Except.error e) ∧
    (∀ (mid : ID) (nr : Except GoError Unit) (dr : Except GoError MachineSegment),
      (MachinesClient.Get mid nr dr).1.length ≤ 1) ∧
    (∀ (mid : ID) (e : GoError),
      MachinesClient.Get mid (Except.ok ()) (Except.error e) =
        ([{ method := "GET", path := "/machines/" ++ mid.idStr, query := [], body := none }],
          Except.error e)) := by
  refine ⟨?_, ?_, ?_, ?_, ?_, ?_, ?_, ?_⟩
  · intro t nr dr
    cases nr <;> cases dr <;> simp [CredentialTreeClient.Post, oneCall]
  · intro t e
    rfl
  · intro name path pe oid nr dr
    by_cases hb : (path != "" && pe.isSome) = true
    · simp [CredentialTreeClient.ListTrees, hb]
    · cases nr <;> cases dr <;> simp [CredentialTreeClient.ListTrees, hb, oneCall]
  · intro name path pe oid e h
    by_cases hp : path = ""
    · cases pe <;> simp [CredentialTreeClient.ListTrees, hp, oneCall]
    · cases pe with
      | none => simp [CredentialTreeClient.ListTrees, hp, oneCall]
      | some p => exact absurd ⟨hp, by simp⟩ h
  · intro machine memberships token nr dr
    cases nr <;> cases dr <;> simp [MachinesClient.Create, oneCall]
  · intro machine memberships token e
    rfl
  · intro mid nr dr
    cases nr <;> cases dr <;> simp [MachinesClient.Get, oneCall]
  · intro mid e
    rfl

/-- Witness for C5 at a concrete failed `List` call. -/
theorem c5_no_retry_witness :
    (CredentialTreeClient.ListTrees "CERT" "" none none (Except.ok ())
        (Except.error (GoError.other "transport down"))).2 =
      Except.error (GoError.other "transport down") ∧
    (CredentialTreeClient.ListTrees "CERT" "" none none (Except.ok ())
        (Except.error (GoError.other "transport down"))).1.length = 1 :=
  c5_no_retry.2.2.2.1 "CERT" "" none none (GoError.other "transport down")
    (by simp)

/-! ## Daemon termination (src/unnamed/part_001, for C6)

`main` defers `daemon.Shutdown()` and runs the server; `watch`
registers `os.Interrupt` and `os.Kill` with `signal.Notify` and calls
`shutdown` when a signal arrives.  The OS signal layer itself is not
part of the corpus; its decisive behaviour is modelled below.
-/

/-- The signals the daemon's `watch` goroutine registers. -/
inductive Sig where
  | interrupt
  | kill
deriving DecidableEq, Repr

/-- `signal.Notify` registrations in `watch`: `os.Interrupt` and
`os.Kill`. -/
def notifiedSignals : List Sig := [Sig.interrupt, Sig.kill]

/-- Modelled from the spec: the OS signal layer is outside the corpus.
Per the documented Go `os/signal` semantics, SIGKILL may not be caught
or ignored, so it is never delivered to a handler channel; SIGINT is
deliverable. -/
def catchable : Sig → Bool
  | Sig.interrupt => true
  | Sig.kill => false

/-- The daemon's termination triggers named by the claim. -/
inductive Trigger where
  | normalReturn
  | panicInRun
  | panicInShutdown
  | sig : Sig → Trigger
deriving DecidableEq, Repr

/-- Whether `daemon.Shutdown()` is invoked before the process exits on
each termination path: on a normal return from `Run` and on a panic in
`Run` the deferred `Shutdown` in `main` runs; a panic during shutdown
arises inside the already-invoked `Shutdown`; on a signal, `Shutdown`
runs only if the registered signal is actually deliverable. -/
def shutdownInvoked : Trigger → Bool
  | Trigger.normalReturn => true
  | Trigger.panicInRun => true
  | Trigger.panicInShutdown => true
  | Trigger.sig s => notifiedSignals.contains s && catchable s

/-- C6 counterexample: on a kill signal (SIGKILL) the handler never
runs, so `daemon.Shutdown()` is not invoked before the process exits,
although `watch` registers `os.Kill`. -/
theorem c6_kill_no_shutdown_counterexample :
    shutdownInvoked (Trigger.sig Sig.kill) = false := by
  decide

/-- C6 amended: `daemon.Shutdown()` is invoked before the process
exits on every termination path except receipt of a kill signal —
normal return from `Run`, a panic in `Run` or during shutdown, and an
interrupt signal all reach `Shutdown`. -/
theorem c6_shutdown_on_terminations :
    ∀ t : Trigger, t ≠ Trigger.sig Sig.kill → shutdownInvoked t = true := by
  intro t h
  match t with
  | Trigger.normalReturn => rfl
  | Trigger.panicInRun => rfl
  | Trigger.panicInShutdown => rfl
  | Trigger.sig Sig.interrupt => decide
  | Trigger.sig Sig.kill => exact absurd rfl h

/-- Witness for C6 on the interrupt path. -/
theorem c6_shutdown_on_terminations_witness :
    shutdownInvoked (Trigger.sig Sig.interrupt) = true :=
  c6_shutdown_on_terminations (Trigger.sig Sig.interrupt) (by decide)

/-! ## Login credentials (apitypes, for C8)

`UserLogin` and `MachineLogin` with `Valid`, `Passphrase`, and
`Identifier`.  `base64.Value` is a byte slice whose `String()` form is
its base64 text; the encoder (padding-free URL alphabet) is modelled
here since the `base64` package is outside the corpus — the claims
depend on it only through the encoded string.
-/

/-- The base64 URL alphabet. -/
def b64Alphabet : List Char :=
  "ABCDEFGHIJKLMNOPQRSTUVWXYZabcdefghijklmnopqrstuvwxyz0123456789-_".toList

/-- Character for a 6-bit group. -/
def b64CharAt (n : Nat) : Char :=
  b64Alphabet.getD n 'A'

/-- Base64-encode a byte list (three bytes at a time, no padding). -/
def b64EncodeBytes : List UInt8 → List Char
  | [] => []
  | [a] =>
    let x := a.toNat
    [b64CharAt (x / 4), b64CharAt (x % 4 * 16)]
  | [a, b] =>
    let x := a.toNat
    let y := b.toNat
    [b64CharAt (x / 4), b64CharAt (x % 4 * 16 + y / 16), b64CharAt (y % 16 * 4)]
  | a :: b :: c :: rest =>
    let x := a.toNat
    let y := b.toNat
    let z := c.toNat
    b64CharAt (x / 4) :: b64CharAt (x % 4 * 16 + y / 16) ::
      b64CharAt (y % 16 * 4 + z / 64) :: b64CharAt (z % 64) :: b64EncodeBytes rest

/-- `base64.Value`: a byte slice. -/
structure B64Value where
  bytes : List UInt8
deriving DecidableEq, Repr

/-- `base64.Value.String()`: the base64 text of the bytes. -/
def B64Value.toStr (v : B64Value) : String :=
  String.mk (b64EncodeBytes v.bytes)

/-- `apitypes.UserLogin`: email and password. -/
structure UserLogin where
  email : String
  password : String
deriving DecidableEq, Repr

/-- `UserLogin.Valid`: both components non-empty. -/
def UserLogin.Valid (u : UserLogin) : Bool :=
  u.email != "" && u.password != ""

/-- `UserLogin.Passphrase`: `[]byte(u.Password)`. -/
def UserLogin.Passphrase (u : UserLogin) : List UInt8 :=
  u.password.toUTF8.toList

/-- `UserLogin.Identifier`: the email. -/
def UserLogin.Identifier (u : UserLogin) : String :=
  u.email

/-- `apitypes.MachineLogin`: nilable token ID and secret. -/
structure MachineLogin where
  tokenID : Option ID
  secret : Option B64Value
deriving DecidableEq, Repr

/-- `MachineLogin.Valid`: token ID and secret present and the secret's
string form non-empty (the `&&` short-circuits, so a nil secret is
never dereferenced). -/
def MachineLogin.Valid (m : MachineLogin) : Bool :=
  match m.tokenID, m.secret with
  | some _, some s => s.toStr != ""
  | _, _ => false

/-- `MachineLogin.Passphrase`: `*m.Secret` — the secret's bytes.  A
nil secret would panic in Go; the model returns `[]` there and the
theorem only speaks about present secrets. -/
def MachineLogin.Passphrase (m : MachineLogin) : List UInt8 :=
  match m.secret with
  | some s => s.bytes
  | none => []

/-- `MachineLogin.Identifier`: `m.TokenID.String()`.  A nil token ID
would panic in Go; the model returns `""` there. -/
def MachineLogin.Identifier (m : MachineLogin) : String :=
  match m.tokenID with
  | some i => i.idStr
  | none => ""

/-- C8: a `UserLogin` is valid iff email and password are non-empty; a
`MachineLogin` is valid iff token ID and secret are present and the
secret's string form is non-empty; `Passphrase` is the byte form of
the password or secret and `Identifier` the email or token ID string. -/
theorem c8_login_credentials :
    (∀ u : UserLogin, u.Valid = true ↔ (u.email ≠ "" ∧ u.password ≠ "")) ∧
    (∀ u : UserLogin, u.Passphrase = u.password.toUTF8.toList ∧ u.Identifier = u.email) ∧
    (∀ m : MachineLogin, m.Valid = true ↔
      (m.tokenID ≠ none ∧ ∃ s : B64Value, m.secret = some s ∧ s.toStr ≠ "")) ∧
    (∀ (m : MachineLogin) (s : B64Value), m.secret = some s → m.Passphrase = s.bytes) ∧
    (∀ (m : MachineLogin) (i : ID), m.tokenID = some i → m.Identifier = i.idStr) := by
  refine ⟨?_, ?_, ?_, ?_, ?_⟩
  · intro u
    simp [UserLogin.Valid, Bool.and_eq_true, bne_iff_ne]
  · intro u
    exact ⟨rfl, rfl⟩
  · intro m
    obtain ⟨tid, sec⟩ := m
    cases tid <;> cases sec <;> simp [MachineLogin.Valid, bne_iff_ne]
  · intro m s h
    simp [MachineLogin.Passphrase, h]
  · intro m i h
    simp [MachineLogin.Identifier, h]

/-- Witness for C8 at a concrete machine login. -/
theorem c8_login_credentials_witness :
    MachineLogin.Passphrase { tokenID := some { idStr := "tok1" }, secret := some { bytes := [104, 105] } } =
      [104, 105] ∧
    MachineLogin.Identifier { tokenID := some { idStr := "tok1" }, secret := some { bytes := [104, 105] } } =
      "tok1" :=
  ⟨c8_login_credentials.2.2.2.1 _ { bytes := [104, 105] } rfl,
    c8_login_credentials.2.2.2.2 _ { idStr := "tok1" } rfl⟩

/-! ## The CLI `wrap` helper (src/cli/lib/cli/wrap.js, for C9)

`wrap(fn)` calls `fn` inside try/catch; a thrown error becomes a
rejected promise; otherwise the check `result && result.then` decides
whether the value is returned as-is or wrapped in a resolved promise.
JavaScript values are modelled with exactly the observations `wrap`
makes: truthiness, the `then` property, and promise-ness.
-/

/-- JavaScript values as observed by `wrap`: primitives, plain objects
(with or without a `then` property), functions, and promises. -/
inductive JSVal where
  | undef : JSVal
  | jsNull : JSVal
  | boolean : Bool → JSVal
  | number : Int → JSVal
  | str : String → JSVal
  | objNoThen : Nat → JSVal
  | objWithThen : JSVal → Nat → JSVal
  | fn : Nat → JSVal
  | promiseRes : JSVal → JSVal
  | promiseRej : JSVal → JSVal
deriving DecidableEq, Repr

/-- JavaScript truthiness. -/
def truthy : JSVal → Bool
  | JSVal.undef => false
  | JSVal.jsNull => false
  | JSVal.boolean b => b
  | JSVal.number n => n != 0
  | JSVal.str s => s != ""
  | _ => true

/-- The `then` property of a value: objects carry their own, promises
have the built-in `then` method, everything else has none. -/
def thenProp : JSVal → Option JSVal
  | JSVal.objWithThen t _ => some t
  | JSVal.promiseRes _ => some (JSVal.fn 0)
  | JSVal.promiseRej _ => some (JSVal.fn 0)
  | _ => none

/-- Truthiness of `result.then` (absent properties are `undefined`,
hence falsy). -/
def thenTruthy (v : JSVal) : Bool :=
  match thenProp v with
  | some t => truthy t
  | none => false

/-- `wrap(fn)` given the outcome of `fn()` (thrown error or returned
value): rejected promise on throw; the value itself when
`result && result.then` is truthy; otherwise a resolved promise. -/
def wrap (fnResult : Except JSVal JSVal) : JSVal :=
  match fnResult with
  | Except.error e => JSVal.promiseRej e
  | Except.ok result =>
    if truthy result && thenTruthy result then result
    else JSVal.promiseRes result

/-- Whether a value is callable. -/
def callable : JSVal → Bool
  | JSVal.fn _ => true
  | _ => false

/-- The claim's word "thenable": a value with a callable `then`
method. -/
def isThenable (v : JSVal) : Bool :=
  match thenProp v with
  | some t => callable t
  | none => false

/-- Whether a value is a promise. -/
def isPromise : JSVal → Bool
  | JSVal.promiseRes _ => true
  | JSVal.promiseRej _ => true
  | _ => false

/-- C9 counterexample: for a truthy object whose `then` property is
truthy but not callable — hence not a thenable — `wrap` returns the
object itself, not a promise resolved with it, so `wrap`'s result is
not a promise either. -/
theorem c9_wrap_counterexample :
    wrap (Except.ok (JSVal.objWithThen (JSVal.number 1) 0)) =
      JSVal.objWithThen (JSVal.number 1) 0 ∧
    isThenable (JSVal.objWithThen (JSVal.number 1) 0) = false ∧
    isPromise (wrap (Except.ok (JSVal.objWithThen (JSVal.number 1) 0))) = false := by
  refine ⟨by decide, by decide, by decide⟩

/-- C9 amended: `wrap` never throws; a thrown error yields a promise
rejected with it; a value that is falsy or whose `then` property is
not truthy yields a promise resolved with it; a truthy value with a
truthy `then` property — in particular every thenable — is returned
unchanged. -/
theorem c9_wrap_amended :
    (∀ e : JSVal, wrap (Except.error e) = JSVal.promiseRej e) ∧
    (∀ v : JSVal, (truthy v && thenTruthy v) = true → wrap (Except.ok v) = v) ∧
    (∀ v : JSVal, (truthy v && thenTruthy v) = false →
      wrap (Except.ok v) = JSVal.promiseRes v) ∧
    (∀ v : JSVal, isThenable v = true → wrap (Except.ok v) = v) := by
  refine ⟨fun e => rfl, ?_, ?_, ?_⟩
  · intro v h
    simp [wrap, h]
  · intro v h
    simp [wrap, h]
  · intro v h
    match v with
    | JSVal.objWithThen t tag =>
      match t with
      | JSVal.fn k => rfl
      | JSVal.undef | JSVal.jsNull | JSVal.boolean _ | JSVal.number _
      | JSVal.str _ | JSVal.objNoThen _ | JSVal.objWithThen _ _
      | JSVal.promiseRes _ | JSVal.promiseRej _ =>
        simp [isThenable, thenProp, callable] at h
    | JSVal.promiseRes x => rfl
    | JSVal.promiseRej x => rfl
    | JSVal.undef | JSVal.jsNull | JSVal.boolean _ | JSVal.number _
    | JSVal.str _ | JSVal.objNoThen _ | JSVal.fn _ =>
      simp [isThenable, thenProp] at h

/-- Witness for C9 at a thenable and a plain value. -/
theorem c9_wrap_amended_witness :
    wrap (Except.ok (JSVal.promiseRes (JSVal.number 7))) =
      JSVal.promiseRes (JSVal.number 7) ∧
    wrap (Except.ok JSVal.undef) = JSVal.promiseRes JSVal.undef :=
  ⟨c9_wrap_amended.2.2.2 _ (by decide), c9_wrap_amended.2.2.1 JSVal.undef (by decide)⟩

/-! ## Profile editing (src/unnamed/part_000, for C10)

`profileEdit` with the prompt/registry collaborators supplied as
oracles, returning the trace of effects alongside the result.
-/

/-- What `profileEdit` reads from the session: type, name, email. -/
structure SessionInfo where
  sessType : String
  name : String
  email : String
deriving DecidableEq, Repr

/-- `apitypes.ProfileUpdate`: the delta sent to `Users.Update` (Go
zero value `""` for unset fields). -/
structure ProfileUpdate where
  name : String
  email : String
  password : String
deriving DecidableEq, Repr

/-- The observable effects of `profileEdit`, in order. -/
inductive ProfileEvent where
  | who : ProfileEvent
  | promptName : ProfileEvent
  | promptEmail : ProfileEvent
  | confirm : ProfileEvent
  | update : ProfileUpdate → ProfileEvent
  | whoAgain : ProfileEvent
deriving DecidableEq, Repr

/-- `profileEdit`: fetch the session, reject machine sessions, prompt
for name and email, return success with no update when nothing
changed, otherwise confirm and send a delta containing only the
changed fields, then re-fetch the session. -/
def profileEdit (cfgResult : Except GoError Unit) (whoResult : Except GoError SessionInfo)
    (namePromptResult : Except GoError String) (emailPromptResult : Except GoError String)
    (confirmResult : Except GoError Unit) (updateResult : Except GoError Unit)
    (whoAgainResult : Except GoError SessionInfo) :
    List ProfileEvent × Except GoError Unit :=
  match cfgResult with
  | Except.error e => ([], Except.error e)
  | Except.ok _ =>
    match whoResult with
    | Except.error _ =>
      ([ProfileEvent.who], Except.error (GoError.other "Error fetching user details"))
    | Except.ok session =>
      if session.sessType == "machine" then
        ([ProfileEvent.who], Except.error (GoError.other "Machines do not have profiles"))
      else
        match namePromptResult with
        | Except.error e => ([ProfileEvent.who, ProfileEvent.promptName], Except.error e)
        | Except.ok name =>
          match emailPromptResult with
          | Except.error e =>
            ([ProfileEvent.who, ProfileEvent.promptName, ProfileEvent.promptEmail],
              Except.error e)
          | Except.ok email =>
            if session.email == email && session.name == name then
              ([ProfileEvent.who, ProfileEvent.promptName, ProfileEvent.promptEmail],
                Except.ok ())
            else
              match confirmResult with
              | Except.error e =>
                ([ProfileEvent.who, ProfileEvent.promptName, ProfileEvent.promptEmail,
                    ProfileEvent.confirm], Except.error e)
              | Except.ok _ =>
                let delta : ProfileUpdate :=
                  { name := if session.name != name then name else ""
                    email := if session.email != email then email else ""
                    password := "" }
                match updateResult with
                | Except.error _ =>
                  ([ProfileEvent.who, ProfileEvent.promptName, ProfileEvent.promptEmail,
                      ProfileEvent.confirm, ProfileEvent.update delta],
                    Except.error (GoError.other "Failed to update profile."))
                | Except.ok _ =>
                  match whoAgainResult with
                  | Except.error _ =>
                    ([ProfileEvent.who, ProfileEvent.promptName, ProfileEvent.promptEmail,
                        ProfileEvent.confirm, ProfileEvent.update delta, ProfileEvent.whoAgain],
                      Except.error (GoError.other "Error fetching user details"))
                  | Except.ok _ =>
                    ([ProfileEvent.who, ProfileEvent.promptName, ProfileEvent.promptEmail,
                        ProfileEvent.confirm, ProfileEvent.update delta, ProfileEvent.whoAgain],
                      Except.ok ())

/-- C10: machine sessions are rejected before any prompt or update;
when neither field differs `profileEdit` succeeds with no update
request; otherwise the delta sent to `Users.Update` carries the email
only if it differs from the session's and the name only if it
differs. -/
theorem c10_profile_update_minimal_delta :
    (∀ (s : SessionInfo) (np ep : Except GoError String)
        (cr ur : Except GoError Unit) (wr : Except GoError SessionInfo),
      s.sessType = "machine" →
      profileEdit (Except.ok ()) (Except.ok s) np ep cr ur wr =
        ([ProfileEvent.who], Except.error (GoError.other "Machines do not have profiles"))) ∧
    (∀ (s : SessionInfo) (cr ur : Except GoError Unit) (wr : Except GoError SessionInfo),
      s.sessType ≠ "machine" →
      profileEdit (Except.ok ()) (Except.ok s) (Except.ok s.name) (Except.ok s.email)
          cr ur wr =
        ([ProfileEvent.who, ProfileEvent.promptName, ProfileEvent.promptEmail],
          Except.ok ())) ∧
    (∀ (s : SessionInfo) (n em : String) (s2 : SessionInfo),
      s.sessType ≠ "machine" →
      (s.email == em && s.name == n) = false →
      profileEdit (Except.ok ()) (Except.ok s) (Except.ok n) (Except.ok em)
          (Except.ok ()) (Except.ok ()) (Except.ok s2) =
        ([ProfileEvent.who, ProfileEvent.promptName, ProfileEvent.promptEmail,
            ProfileEvent.confirm,
            ProfileEvent.update
              { name := if s.name != n then n else ""
                email := if s.email != em then em else ""
                password := "" },
            ProfileEvent.whoAgain],
          Except.ok ())) := by
  refine ⟨?_, ?_, ?_⟩
  · intro s np ep cr ur wr h
    simp [profileEdit, h]
  · intro s cr ur wr h
    have hm : (s.sessType == "machine") = false := by
      simp [beq_eq_false_iff_ne, h]
    simp [profileEdit, hm]
  · intro s n em s2 h hne
    have hm : (s.sessType == "machine") = false := by
      simp [beq_eq_false_iff_ne, h]
    simp [profileEdit, hm, hne]

/-- Witness for C10: a user session changing only the email sends a
delta with the new email and an empty name. -/
theorem c10_profile_update_minimal_delta_witness :
    profileEdit (Except.ok ())
        (Except.ok { sessType := "user", name := "Ada", email := "ada@old.io" })
        (Except.ok "Ada") (Except.ok "ada@new.io")
        (Except.ok ()) (Except.ok ())
        (Except.ok { sessType := "user", name := "Ada", email := "ada@new.io" }) =
      ([ProfileEvent.who, ProfileEvent.promptName, ProfileEvent.promptEmail,
          ProfileEvent.confirm,
          ProfileEvent.update { name := "", email := "ada@new.io", password := "" },
          ProfileEvent.whoAgain],
        Except.ok ()) := by
  have h := c10_profile_update_minimal_delta.2.2
    { sessType := "user", name := "Ada", email := "ada@old.io" } "Ada" "ada@new.io"
    { sessType := "user", name := "Ada", email := "ada@new.io" }
    (by decide) (by decide)
  exact h.trans (by rfl)

end Torus
